import Mathlib

/-!
Verification of the system-design-interview workflow core
(`workflow_definitions/system_design/functions.py` and
`workflow_definitions/system_design/agent.py`), shallowly embedded in Lean.

Conventions of the embedding:
* Python `Optional[str]` becomes `Option String`; Python truthiness of a
  string is "non-empty", of an optional string "present and non-empty".
* Python f-string interpolation of an `Optional[str]` renders `None` as the
  literal string "None" (`pyShowOptStr`).
* A Python function body with no local `try`/`except` that calls a fallible
  operation is embedded as a function of the operation's `Except` result:
  an exception raised inside the body propagates out as `.error`.
* `exec`-style side effects (the redirection of `sys.stdout` in
  `calculate_metrics`) are made explicit by threading the stdout handle.
-/

namespace SystemDesignBot

/-- Python truthiness of an optional string: truthy iff present and
non-empty (`if x:` on an `Optional[str]`). -/
def pyTruthyOptStr : Option String → Bool
  | none => false
  | some s => !(s == "")

/-- Python f-string rendering of an `Optional[str]`: `None` prints as the
literal `"None"`. -/
def pyShowOptStr : Option String → String
  | none => "None"
  | some s => s

/-- Python `x if x else ""` on an `Optional[str]`. -/
def pyOrEmptyStr : Option String → String
  | none => ""
  | some s => s

/-! ## Data model (Pydantic models of `functions.py`) -/

/-- `HypothesesList` (functions.py lines 15-17): the structured output
schema of the hypothesis-generation call. -/
structure HypothesesList where
  hypotheses : List String
  verification_questions : List String
deriving Repr, DecidableEq

/-- `HypothesisVerification` (functions.py lines 19-23): one per-hypothesis
verdict. -/
structure HypothesisVerification where
  hypothesis : String
  is_valid : Bool
  reason : Option String
  is_best : Bool
deriving Repr, DecidableEq

/-- `VerificationResult` (functions.py lines 25-27): the structured output
schema of the verification call. -/
structure VerificationResult where
  hypotheses_feedback : List HypothesisVerification
  solution_draft : Option String
deriving Repr, DecidableEq

/-! ## `determine_next_state` (functions.py lines 217-263) -/

/-- The return value of `determine_next_state`. -/
structure NextState where
  should_stop : Bool
  next_question : String
deriving Repr, DecidableEq

/-- `determine_next_state` (functions.py lines 217-263).  The Python body:
`should_stop = False`, `next_question = ""`; if `not is_valid`, set
`next_question` to the retry template embedding `verification_reason`;
else if `next_action == "stop"`, set `should_stop = True`; else set
`next_question = next_input if next_input else ""`. -/
def determine_next_state (verification_reason : Option String)
    (next_input : Option String) (next_action : Option String)
    (is_valid : Bool) : NextState :=
  if !is_valid then
    { should_stop := false
      next_question := "Previous hypotheses were invalid. Reason: " ++
        pyShowOptStr verification_reason ++ ". Please try again considering this." }
  else if next_action == some "stop" then
    { should_stop := true, next_question := "" }
  else
    { should_stop := false, next_question := pyOrEmptyStr next_input }

/-! ## `calculate_metrics` (agent.py lines 13-32) -/

/-- The value of the process-global `sys.stdout` after a call of
`calculate_metrics`: either some stdout handle that existed before the call
(in particular the saved `old_stdout`), or the `StringIO` capture buffer
created inside the call. -/
inductive StdoutHandle (α : Type) where
  | prior (h : α)
  | captureBuffer
deriving Repr, DecidableEq

/-- Outcome of `exec(script, {}, local_scope)` under the redirected stdout:
either the text the script printed, or a raised exception rendered as its
message. -/
abbrev ExecOutcome := Except String String

/-- `calculate_metrics` (agent.py lines 13-32), with the `exec` call
abstracted to its outcome and the `sys.stdout` global threaded explicitly.
The body saves `old_stdout`, redirects `sys.stdout` to a fresh `StringIO`,
runs the script, and on success restores `sys.stdout` and returns the
captured output stripped; the `except Exception` clause returns the error
rendered as text without restoring `sys.stdout`. -/
def calculate_metrics {α : Type} (exec_outcome : ExecOutcome)
    (old_stdout : α) : String × StdoutHandle α :=
  match exec_outcome with
  | .ok printed => (printed.trim, .prior old_stdout)
  | .error e => ("Error executing code: " ++ e, .captureBuffer)

/-! ## `generate_hypotheses` (functions.py lines 35-60) -/

/-- The return value of `generate_hypotheses`. -/
structure GenerateHypothesesOut where
  hypotheses : List String
  verification_questions : List String
deriving Repr, DecidableEq

/-- `generate_hypotheses` (functions.py lines 35-60), as a function of the
outcome of `chain.invoke` (the structured-output LLM call).  The Python
body contains no `try`/`except`: an exception raised while decoding the
model output into `HypothesesList` propagates out of the node, so the
`.error` case passes through. -/
def generate_hypotheses (invoke_outcome : Except String HypothesesList) :
    Except String GenerateHypothesesOut :=
  invoke_outcome.map fun response =>
    { hypotheses := response.hypotheses
      verification_questions := response.verification_questions }

/-! ## `verify_hypotheses` (functions.py lines 67-109) -/

/-- The return value of `verify_hypotheses`. -/
structure VerifyHypothesesOut where
  is_valid : Bool
  best_hypothesis : String
  solution_draft : String
  verification_reason : String
  verification_details : List HypothesisVerification
deriving Repr, DecidableEq

/-- The per-hypothesis reason entries of functions.py line 98:
`[f"{h.hypothesis}: {h.reason}" for h in feedback if h.reason]`
(kept only when `h.reason` is truthy, i.e. present and non-empty). -/
def reasonEntries (feedback : List HypothesisVerification) : List String :=
  feedback.filterMap fun h =>
    match h.reason with
    | none => none
    | some r => if r = "" then none else some (h.hypothesis ++ ": " ++ r)

/-- The aggregation logic of `verify_hypotheses` (functions.py lines
86-109), as a function of the decoded `VerificationResult`:
global validity is `any`, the best hypothesis is the first `is_best`
verdict's hypothesis, falling back (when that string is falsy and some
verdict is valid) to the first valid verdict's hypothesis, and the global
reason is built only when globally invalid. -/
def aggregateVerification (response : VerificationResult) : VerifyHypothesesOut :=
  let feedback := response.hypotheses_feedback
  let is_valid_global := feedback.any (·.is_valid)
  let best_h0 := ((feedback.find? (·.is_best)).map (·.hypothesis)).getD ""
  let best_h :=
    if best_h0 = "" ∧ is_valid_global then
      ((feedback.find? (·.is_valid)).map (·.hypothesis)).getD ""
    else best_h0
  let global_reason :=
    if is_valid_global then ""
    else
      let joined := String.intercalate "; " (reasonEntries feedback)
      if joined = "" then "No valid hypotheses found." else joined
  { is_valid := is_valid_global
    best_hypothesis := best_h
    solution_draft := (response.solution_draft).getD ""
    verification_reason := global_reason
    verification_details := feedback }

/-- `verify_hypotheses` (functions.py lines 67-109), as a function of the
outcome of `chain.invoke`.  As with `generate_hypotheses`, the body has no
`try`/`except`, so a structured-output decoding failure propagates. -/
def verify_hypotheses (invoke_outcome : Except String VerificationResult) :
    Except String VerifyHypothesesOut :=
  invoke_outcome.map aggregateVerification

/-! ## Calling convention: extra keyword arguments

A Python `def` without a `**kwargs` parameter raises `TypeError` when
called with a keyword argument not in its signature.  We embed a node's
call protocol as its parameter-name list plus the rule of CPython:
the call succeeds iff every supplied keyword is a declared parameter. -/

/-- Names of the declared parameters of `generate_solution`
(functions.py lines 115-123): no `**kwargs` in the signature. -/
def generate_solution_params : List String :=
  ["hypothesis", "draft", "is_valid", "hypotheses_history", "questions",
   "answers", "config"]

/-- Names of the declared parameters of `critic_review`
(functions.py lines 130-137): no `**kwargs` in the signature. -/
def critic_review_params : List String :=
  ["solution", "is_valid", "hypothesis", "hypotheses_history", "questions",
   "answers", "config"]

/-- Whether the Python function's signature ends in `**kwargs`.  Neither
`generate_solution` nor `critic_review` has one (contrast
`ask_user_verification`, functions.py line 62). -/
def generate_solution_has_var_keyword : Bool := false

/-- `critic_review` likewise declares no `**kwargs`. -/
def critic_review_has_var_keyword : Bool := false

/-- CPython keyword-call rule: calling a function whose declared keyword
parameters are `params` (and that declares no `**kwargs` catch-all) with
the keyword set `supplied` raises `TypeError` iff some supplied keyword is
not a declared parameter. -/
def callRaisesTypeError (params : List String) (has_var_keyword : Bool)
    (supplied : List String) : Bool :=
  !has_var_keyword && supplied.any (fun k => !params.contains k)

/-! ## `summarize` (functions.py lines 146-206) -/

/-- One history record (the `record` dict built in `summarize`,
functions.py lines 172-181).  `solution := none` models the absence of the
`"solution"` key; `why_not_valid` carries the verdict's `reason` field,
which may itself be `None`. -/
structure CycleRecord where
  initial_query : String
  current_question : String
  hypothesis : String
  verification_questions : List String
  verification_answers : List String
  is_the_best_hypothesis : Bool
  is_valid : Bool
  why_not_valid : Option String
  solution : Option String
deriving Repr, DecidableEq

/-- The record built for one per-hypothesis verdict in the detailed branch
of `summarize` (functions.py lines 165-186): verdict fields are copied,
and the `"solution"` key is added only when the verdict is flagged best and
`solution` is truthy. -/
def summarizeRecord (initial : String) (current_q_text : String)
    (questions answers : List String) (solution : Option String)
    (item : HypothesisVerification) : CycleRecord :=
  { initial_query := initial
    current_question := current_q_text
    hypothesis := item.hypothesis
    verification_questions := questions
    verification_answers := answers
    is_the_best_hypothesis := item.is_best
    is_valid := item.is_valid
    why_not_valid := item.reason
    solution :=
      if item.is_best && pyTruthyOptStr solution then solution else none }

/-- `summarize` (functions.py lines 146-206).  `verification_details` is
truthy iff it is a present, non-empty list; in that case one record per
verdict is emitted.  The fallback branch (lines 187-204) dereferences the
names `h` and `record`, neither of which is bound anywhere in the
function, so at runtime it raises `NameError` (on `h` when `is_valid` is
truthy, on `record` otherwise); the embedding returns that exception as
`.error`. -/
def summarize (initial : String) (hypotheses : List String)
    (questions answers : List String) (hypothesis : String)
    (is_valid : Bool) (reason : String) (current_question : Option String)
    (solution : Option String)
    (verification_details : Option (List HypothesisVerification)) :
    Except String (List CycleRecord) :=
  let current_q_text :=
    if pyTruthyOptStr current_question then pyOrEmptyStr current_question
    else initial
  match verification_details with
  | some details =>
    if details.isEmpty then
      if is_valid then .error "NameError: name 'h' is not defined"
      else .error "NameError: name 'record' is not defined"
    else
      .ok (details.map
        (summarizeRecord initial current_q_text questions answers solution))
  | none =>
    if is_valid then .error "NameError: name 'h' is not defined"
    else .error "NameError: name 'record' is not defined"

/-! ## `save_results` (functions.py lines 265-302) -/

/-- The verification Q/A lines of one record (functions.py lines 277-284):
emitted only when both lists are truthy (non-empty); `zip` pairs the
questions and answers positionally and stops at the shorter list. -/
def qaLines (r : CycleRecord) : List String :=
  if !r.verification_questions.isEmpty && !r.verification_answers.isEmpty then
    "**Verification:**" ::
      ((r.verification_questions.zip r.verification_answers).flatMap
        fun qa => ["- **Q:** " ++ qa.1, "  **A:** " ++ qa.2]) ++ [""]
  else []

/-- The validity-status lines of one record (functions.py lines 286-297):
the solution body is appended only when the record is valid, flagged best,
and its `solution` value is truthy. -/
def statusLines (r : CycleRecord) : List String :=
  if r.is_valid then
    "**Status:** Valid" ::
      (if r.is_the_best_hypothesis then
        "**Result:** Selected as Best Hypothesis" ::
          (match r.solution with
           | some s => if s = "" then [] else ["\n#### Solution", s]
           | none => [])
       else [])
  else
    ["**Status:** Invalid",
     "**Invalid Reason:** " ++
       (if pyTruthyOptStr r.why_not_valid then pyOrEmptyStr r.why_not_valid
        else "No reason provided.")]

/-- All lines appended for the `i`-th record of the history
(functions.py lines 272-299). -/
def recordLines (i : Nat) (r : CycleRecord) : List String :=
  ["### Hypothesis " ++ toString (i + 1),
   "**Question:** " ++ r.current_question ++ "\n",
   "**Hypothesis:** " ++ r.hypothesis ++ "\n"]
  ++ qaLines r ++ statusLines r ++ ["\n---\n"]

/-- The imperative accumulation of `lines` in `save_results`
(functions.py lines 269-299): starting from the header, the loop over
`enumerate(history or [])` appends each record's lines in order. -/
def reportLines (history : Option (List CycleRecord)) : List String :=
  (history.getD []).enum.foldl
    (fun acc p => acc ++ recordLines p.1 p.2)
    ["# System Design Interview Report"]

/-- `save_results` (functions.py lines 265-302): the report is the
newline-join of the accumulated lines. -/
def save_results (history : Option (List CycleRecord)) : String :=
  String.intercalate "\n" (reportLines history)

/-! ## Spec-side reformulations (for the aggregation claim)

These definitions follow the specification's wording ("prefer the verdict
explicitly flagged `is_best`; if none flagged but at least one is valid,
fall back to the first valid verdict in generation order"), to be compared
with `aggregateVerification`, which is translated from the source. -/

/-- The hypothesis text of the first verdict flagged `is_best`, in
generation order. -/
def firstBestHypothesis : List HypothesisVerification → Option String
  | [] => none
  | v :: vs => if v.is_best then some v.hypothesis else firstBestHypothesis vs

/-- The hypothesis text of the first valid verdict, in generation order. -/
def firstValidHypothesis : List HypothesisVerification → Option String
  | [] => none
  | v :: vs => if v.is_valid then some v.hypothesis else firstValidHypothesis vs

/-- The per-hypothesis `"hypothesis: reason"` entries, keeping the verdicts
that supply a non-empty reason, in generation order. -/
def specReasonEntries : List HypothesisVerification → List String
  | [] => []
  | v :: vs =>
    match v.reason with
    | some r =>
      if r = "" then specReasonEntries vs
      else (v.hypothesis ++ ": " ++ r) :: specReasonEntries vs
    | none => specReasonEntries vs

/-- Spec-side best-hypothesis selection, amended by the counterexample:
the first verdict flagged `is_best` wins only when its hypothesis text is
non-empty; otherwise, when at least one verdict is valid, the first valid
verdict's hypothesis is chosen; otherwise the empty string. -/
def specBestHypothesis (feedback : List HypothesisVerification) : String :=
  match firstBestHypothesis feedback with
  | some h =>
    if h ≠ "" then h
    else if feedback.any (·.is_valid) then
      (firstValidHypothesis feedback).getD ""
    else ""
  | none =>
    if feedback.any (·.is_valid) then (firstValidHypothesis feedback).getD ""
    else ""

/-- Spec-side aggregated failure reason: empty when some verdict is valid;
otherwise the `"; "`-join of the supplied per-hypothesis reason entries,
defaulting to the fixed fallback string when none is supplied. -/
def specGlobalReason (feedback : List HypothesisVerification) : String :=
  if feedback.any (·.is_valid) then ""
  else
    let joined := String.intercalate "; " (specReasonEntries feedback)
    if joined = "" then "No valid hypotheses found." else joined

/-! ## Theorems -/

/-- C1: `determine_next_state` is a pure function of
`{is_valid, verification_reason, next_action, next_input}`: with
`is_valid = false` it never stops and returns the non-empty retry template
embedding `verification_reason`; with `is_valid = true` it stops exactly
when `next_action == "stop"` (regardless of `next_input`), and otherwise
returns `next_input` as the next question (the empty string when
`next_input` is missing or empty). -/
theorem determine_next_state_spec (vr ni na : Option String) :
    ((determine_next_state vr ni na false).should_stop = false
      ∧ (determine_next_state vr ni na false).next_question
          = "Previous hypotheses were invalid. Reason: " ++ pyShowOptStr vr
            ++ ". Please try again considering this."
      ∧ (determine_next_state vr ni na false).next_question ≠ "")
    ∧ ((determine_next_state vr ni na true).should_stop = true ↔ na = some "stop")
    ∧ (na ≠ some "stop" →
        (determine_next_state vr ni na true).should_stop = false
        ∧ (determine_next_state vr ni na true).next_question = pyOrEmptyStr ni) := by
  refine ⟨⟨rfl, rfl, ?_⟩, ?_, ?_⟩
  · intro h
    have h' : ("Previous hypotheses were invalid. Reason: " ++ pyShowOptStr vr
        ++ ". Please try again considering this." : String) = "" := h
    have hlen := congrArg String.length h'
    rw [String.length_append, String.length_append] at hlen
    have h1 : ("Previous hypotheses were invalid. Reason: " : String).length = 42 := rfl
    have h2 : (". Please try again considering this." : String).length = 36 := rfl
    have h0 : ("" : String).length = 0 := rfl
    rw [h1, h2, h0] at hlen
    omega
  · by_cases hna : na = some "stop"
    · subst hna
      simp [determine_next_state]
    · simp [determine_next_state, hna]
  · intro hna
    constructor <;> simp [determine_next_state, hna]

/-- Closed instance of `determine_next_state_spec` at concrete inputs,
discharging its conditional clause at `next_action = "loop"`. -/
theorem determine_next_state_spec_witness :
    ((determine_next_state (some "too vague") (some "Design feeds")
        (some "loop") false).should_stop = false
      ∧ (determine_next_state (some "too vague") (some "Design feeds")
          (some "loop") false).next_question
          = "Previous hypotheses were invalid. Reason: " ++ pyShowOptStr (some "too vague")
            ++ ". Please try again considering this."
      ∧ (determine_next_state (some "too vague") (some "Design feeds")
          (some "loop") false).next_question ≠ "")
    ∧ ((determine_next_state (some "too vague") (some "Design feeds")
        (some "loop") true).should_stop = true ↔ (some "loop" : Option String) = some "stop")
    ∧ ((some "loop" : Option String) ≠ some "stop" →
        (determine_next_state (some "too vague") (some "Design feeds")
          (some "loop") true).should_stop = false
        ∧ (determine_next_state (some "too vague") (some "Design feeds")
            (some "loop") true).next_question = pyOrEmptyStr (some "Design feeds")) :=
  determine_next_state_spec (some "too vague") (some "Design feeds") (some "loop")

/-- C2 counterexample: on an un-parseable model output, `generate_hypotheses`
propagates the decoding failure instead of returning the sentinel of empty
lists, and `verify_hypotheses` likewise propagates instead of returning an
`is_valid = false` sentinel. -/
theorem parse_failure_not_degraded_cex :
    generate_hypotheses (Except.error "malformed model output")
        = Except.error "malformed model output"
    ∧ generate_hypotheses (Except.error "malformed model output")
        ≠ Except.ok { hypotheses := [], verification_questions := [] }
    ∧ verify_hypotheses (Except.error "malformed model output")
        = Except.error "malformed model output"
    ∧ ∀ out, verify_hypotheses (Except.error "malformed model output")
        ≠ Except.ok out :=
  ⟨rfl, fun h => Except.noConfusion h, rfl, fun _ h => Except.noConfusion h⟩

/-- C2 amended: neither `generate_hypotheses` nor `verify_hypotheses`
contains a local handler, so a model-output parse failure propagates out of
the node unchanged; only a successfully decoded output produces the node's
result dictionary. -/
theorem reasoning_nodes_propagate_parse_failures :
    (∀ e, generate_hypotheses (Except.error e) = Except.error e)
    ∧ (∀ e, verify_hypotheses (Except.error e) = Except.error e)
    ∧ (∀ r, generate_hypotheses (Except.ok r)
        = Except.ok { hypotheses := r.hypotheses
                      verification_questions := r.verification_questions })
    ∧ (∀ r, verify_hypotheses (Except.ok r) = Except.ok (aggregateVerification r)) :=
  ⟨fun _ => rfl, fun _ => rfl, fun _ => rfl, fun _ => rfl⟩

/-- C3: evaluating the CPython keyword-call rule at the calls made by the
repository's own signature tests: `generate_solution` invoked with the
extra keyword `random_arg` and `critic_review` invoked with the extra
keyword `extra` both raise `TypeError`, because neither signature declares
those names nor a `**kwargs` catch-all. -/
theorem extra_kwargs_raise_type_error :
    callRaisesTypeError generate_solution_params generate_solution_has_var_keyword
        ["hypothesis", "draft", "config", "is_valid", "random_arg"] = true
    ∧ callRaisesTypeError critic_review_params critic_review_has_var_keyword
        ["solution", "config", "is_valid", "extra"] = true := by
  decide

/-- C5: evaluating `summarize` on the legacy fallback path (absent or
empty `verification_details`): instead of emitting the cycle's record(s),
the function raises `NameError` — the branch references the unbound names
`h` (valid case) and `record` (invalid case). -/
theorem summarize_fallback_raises :
    summarize "Design a URL shortener" ["H1"] ["Q1"] ["A1"] "H1" true ""
        none (some "Sharded counters") none
      = Except.error "NameError: name 'h' is not defined"
    ∧ summarize "Design a URL shortener" ["H1"] ["Q1"] ["A1"] "" false
        "no capacity estimate" none none none
      = Except.error "NameError: name 'record' is not defined"
    ∧ summarize "Design a URL shortener" ["H1"] ["Q1"] ["A1"] "H1" true ""
        none (some "Sharded counters") (some [])
      = Except.error "NameError: name 'h' is not defined" :=
  ⟨rfl, rfl, rfl⟩

/-- C9: `calculate_metrics` always returns a string rather than
propagating the script's exception: on success it returns the captured
standard output stripped of surrounding whitespace, and on any execution
failure it returns the error rendered as `"Error executing code: ..."`. -/
theorem calculate_metrics_returns_text {α : Type} (old_stdout : α) :
    (∀ printed, (calculate_metrics (Except.ok printed) old_stdout).1
        = printed.trim)
    ∧ (∀ e, (calculate_metrics (Except.error e) old_stdout).1
        = "Error executing code: " ++ e) :=
  ⟨fun _ => rfl, fun _ => rfl⟩

/-- C10: `calculate_metrics` restores the process-global `sys.stdout` to
the saved prior handle only on the success path; when the script raises,
the error text is returned while `sys.stdout` is left pointing at the
internal capture buffer. -/
theorem calculate_metrics_stdout_frame {α : Type} (old_stdout : α) :
    (∀ printed, (calculate_metrics (Except.ok printed) old_stdout).2
        = StdoutHandle.prior old_stdout)
    ∧ (∀ e, (calculate_metrics (Except.error e) old_stdout).2
        = StdoutHandle.captureBuffer)
    ∧ (∀ e, (calculate_metrics (Except.error e) old_stdout).2
        ≠ StdoutHandle.prior old_stdout) :=
  ⟨fun _ => rfl, fun _ => rfl, fun _ h => StdoutHandle.noConfusion h⟩

/-- The recursive spec-side "first flagged best" agrees with the source's
`next((h.hypothesis for h in feedback if h.is_best), ...)` search. -/
theorem firstBestHypothesis_eq_find (fb : List HypothesisVerification) :
    firstBestHypothesis fb = (fb.find? (·.is_best)).map (·.hypothesis) := by
  induction fb with
  | nil => rfl
  | cons v vs ih =>
    cases hv : v.is_best <;>
      simp [firstBestHypothesis, List.find?_cons, hv, ih]

/-- The recursive spec-side "first valid" agrees with the source's
`next((h.hypothesis for h in feedback if h.is_valid), ...)` search. -/
theorem firstValidHypothesis_eq_find (fb : List HypothesisVerification) :
    firstValidHypothesis fb = (fb.find? (·.is_valid)).map (·.hypothesis) := by
  induction fb with
  | nil => rfl
  | cons v vs ih =>
    cases hv : v.is_valid <;>
      simp [firstValidHypothesis, List.find?_cons, hv, ih]

/-- The source's reason comprehension builds exactly the spec-side reason
entries. -/
theorem reasonEntries_eq_spec (fb : List HypothesisVerification) :
    reasonEntries fb = specReasonEntries fb := by
  induction fb with
  | nil => rfl
  | cons v vs ih =>
    cases hr : v.reason with
    | none =>
      simp only [reasonEntries, specReasonEntries, List.filterMap_cons, hr]
      exact ih
    | some r =>
      by_cases hre : r = ""
      · simp [reasonEntries, specReasonEntries, List.filterMap_cons, hr, hre]
        exact ih
      · simp [reasonEntries, specReasonEntries, List.filterMap_cons, hr, hre]
        exact ih

/-- C4 counterexample: a verdict list whose `is_best`-flagged verdict has
the empty string as its hypothesis text.  The claim requires
`best_hypothesis` to equal that flagged verdict's hypothesis (`""`), but
the source's Python-truthiness check treats the flagged choice as absent
and falls back to the first valid verdict's hypothesis `"H2"`. -/
theorem verify_best_hypothesis_cex :
    (List.find? (·.is_best)
        [({ hypothesis := "", is_valid := false, reason := none,
            is_best := true } : HypothesisVerification),
         { hypothesis := "H2", is_valid := true, reason := none, is_best := false }]
      = some { hypothesis := "", is_valid := false, reason := none, is_best := true })
    ∧ (aggregateVerification
        { hypotheses_feedback :=
            [{ hypothesis := "", is_valid := false, reason := none, is_best := true },
             { hypothesis := "H2", is_valid := true, reason := none, is_best := false }]
          solution_draft := none }).best_hypothesis = "H2"
    ∧ ("H2" : String) ≠ "" := by
  refine ⟨rfl, rfl, ?_⟩
  decide

/-- C4 amended: `verify_hypotheses` aggregates a decoded verdict list into
global validity (logical OR), the best hypothesis (the first
`is_best`-flagged verdict's hypothesis when that text is non-empty,
otherwise the first valid verdict's hypothesis when some verdict is valid,
otherwise the empty string), and the global failure reason (empty when some
verdict is valid; otherwise the `"; "`-joined supplied per-hypothesis
`"hypothesis: reason"` entries, with a fixed fallback when none is
supplied). -/
theorem verify_aggregation_spec (feedback : List HypothesisVerification)
    (sd : Option String) :
    ((aggregateVerification
        { hypotheses_feedback := feedback, solution_draft := sd }).is_valid = true
      ↔ ∃ v ∈ feedback, v.is_valid = true)
    ∧ (aggregateVerification
        { hypotheses_feedback := feedback, solution_draft := sd }).best_hypothesis
      = specBestHypothesis feedback
    ∧ (aggregateVerification
        { hypotheses_feedback := feedback, solution_draft := sd }).verification_reason
      = specGlobalReason feedback := by
  refine ⟨?_, ?_, ?_⟩
  · simp [aggregateVerification, List.any_eq_true]
  · have hb := firstBestHypothesis_eq_find feedback
    have hv := firstValidHypothesis_eq_find feedback
    simp only [aggregateVerification, ← hb, ← hv]
    cases hfb : firstBestHypothesis feedback with
    | none =>
      cases hval : feedback.any (·.is_valid) <;>
        simp [specBestHypothesis, hfb, hval]
    | some h =>
      by_cases hh : h = ""
      · subst hh
        cases hval : feedback.any (·.is_valid) <;>
          simp [specBestHypothesis, hfb, hval]
      · cases hval : feedback.any (·.is_valid) <;>
          simp [specBestHypothesis, hfb, hval, hh]
  · cases hval : feedback.any (·.is_valid) <;>
      simp [aggregateVerification, specGlobalReason, hval, reasonEntries_eq_spec]

/-- C6: on a non-empty `verification_details` list, `summarize` succeeds
and returns exactly one record per verdict, each copying that verdict's
hypothesis, validity, reason and best flag together with the cycle's
question, verification questions and answers; a record carries the
generated solution text exactly when its verdict is flagged best and a
non-empty solution was generated, and every other record has no solution
field. -/
theorem summarize_details_records (initial : String) (hyps qs as : List String)
    (best : String) (is_valid : Bool) (reason : String) (cq : Option String)
    (sol : Option String) (v : HypothesisVerification)
    (rest : List HypothesisVerification) :
    ∃ recs,
      summarize initial hyps qs as best is_valid reason cq sol (some (v :: rest))
        = Except.ok recs
      ∧ recs.length = (v :: rest).length
      ∧ ∀ i, i < (v :: rest).length →
          ∃ w r, (v :: rest)[i]? = some w ∧ recs[i]? = some r
            ∧ r.initial_query = initial
            ∧ r.current_question
                = (if pyTruthyOptStr cq then pyOrEmptyStr cq else initial)
            ∧ r.hypothesis = w.hypothesis
            ∧ r.verification_questions = qs
            ∧ r.verification_answers = as
            ∧ r.is_the_best_hypothesis = w.is_best
            ∧ r.is_valid = w.is_valid
            ∧ r.why_not_valid = w.reason
            ∧ r.solution
                = (if w.is_best && pyTruthyOptStr sol then sol else none) := by
  refine ⟨(v :: rest).map
    (summarizeRecord initial
      (if pyTruthyOptStr cq then pyOrEmptyStr cq else initial) qs as sol),
    rfl, by simp, ?_⟩
  intro i hi
  refine ⟨(v :: rest).get ⟨i, hi⟩,
    summarizeRecord initial
      (if pyTruthyOptStr cq then pyOrEmptyStr cq else initial) qs as sol
      ((v :: rest).get ⟨i, hi⟩), ?_, ?_, rfl, rfl, rfl, rfl, rfl, rfl, rfl, rfl, rfl⟩
  · exact List.getElem?_eq_getElem hi
  · rw [List.getElem?_map, List.getElem?_eq_getElem hi]
    rfl

/-- C7 counterexample: the verification step performs no filtering of the
model's verdict flags — its `verification_details` output is the decoded
feedback list verbatim — so a verdict flagged best but invalid yields a
cycle whose `CycleRecord` has `is_the_best_hypothesis = true` and
`is_valid = false`, violating the claimed invariant. -/
theorem summarize_best_invalid_cex :
    (aggregateVerification
        { hypotheses_feedback :=
            [{ hypothesis := "H1", is_valid := false,
               reason := some "not supported by the answers", is_best := true }]
          solution_draft := none }).verification_details
      = [{ hypothesis := "H1", is_valid := false,
           reason := some "not supported by the answers", is_best := true }]
    ∧ ∃ recs,
        summarize "Design a URL shortener" ["H1"] ["Q1"] ["A1"] "H1" false
          "H1: not supported by the answers" none none
          (some [{ hypothesis := "H1", is_valid := false,
                   reason := some "not supported by the answers", is_best := true }])
          = Except.ok recs
        ∧ ∃ r ∈ recs, r.is_the_best_hypothesis = true ∧ r.is_valid = false := by
  refine ⟨rfl, [{ initial_query := "Design a URL shortener"
                  current_question := "Design a URL shortener"
                  hypothesis := "H1"
                  verification_questions := ["Q1"]
                  verification_answers := ["A1"]
                  is_the_best_hypothesis := true
                  is_valid := false
                  why_not_valid := some "not supported by the answers"
                  solution := none }], rfl, ?_⟩
  exact ⟨_, List.mem_singleton.mpr rfl, rfl, rfl⟩

/-- C7 amended: whenever the cycle's verdict list flags at most one verdict
as best and every best-flagged verdict is valid (the data-model invariant
the spec states for `VerificationVerdict`), the records `summarize` emits
for the cycle contain at most one with `is_the_best_hypothesis = true`;
any such record also has `is_valid = true` and carries the generated
solution whenever a non-empty solution was generated. -/
theorem summarize_best_unique (initial : String) (hyps qs as : List String)
    (best : String) (is_valid : Bool) (reason : String) (cq : Option String)
    (sol : Option String) (details : List HypothesisVerification)
    (recs : List CycleRecord)
    (hok : summarize initial hyps qs as best is_valid reason cq sol (some details)
      = Except.ok recs)
    (huniq : details.countP (·.is_best) ≤ 1)
    (hbv : ∀ w ∈ details, w.is_best = true → w.is_valid = true) :
    recs.countP (·.is_the_best_hypothesis) ≤ 1
    ∧ ∀ r ∈ recs, r.is_the_best_hypothesis = true →
        r.is_valid = true ∧ ∀ s, sol = some s → s ≠ "" → r.solution = some s := by
  have hrecs : recs = details.map
      (summarizeRecord initial
        (if pyTruthyOptStr cq then pyOrEmptyStr cq else initial) qs as sol) := by
    by_cases hemp : details.isEmpty
    · cases is_valid <;> simp [summarize, hemp] at hok
    · simp only [summarize, hemp, Bool.false_eq_true, if_false] at hok
      exact (Except.ok.injEq _ _).mp hok.symm |>.symm ▸ (Except.ok.inj hok).symm
  subst hrecs
  constructor
  · rw [List.countP_map]
    exact huniq
  · intro r hr hbestr
    obtain ⟨w, hw, hwr⟩ := List.mem_map.mp hr
    subst hwr
    have hwbest : w.is_best = true := hbestr
    refine ⟨hbv w hw hwbest, ?_⟩
    intro s hsol hs
    subst hsol
    simp [summarizeRecord, hwbest, pyTruthyOptStr, hs]

/-- Closed instance of `summarize_best_unique`: the valid cycle of the
spec's end-to-end scenario, with verdicts `H1` (best, valid) and `H2`
(invalid), the generated solution `"Use sharded counters."`, and the two
records `summarize` emits for it. -/
theorem summarize_best_unique_witness :
    ([{ initial_query := "Design a URL shortener"
        current_question := "Design a URL shortener"
        hypothesis := "H1"
        verification_questions := ["Q1"]
        verification_answers := ["A1"]
        is_the_best_hypothesis := true
        is_valid := true
        why_not_valid := none
        solution := some "Use sharded counters." },
      { initial_query := "Design a URL shortener"
        current_question := "Design a URL shortener"
        hypothesis := "H2"
        verification_questions := ["Q1"]
        verification_answers := ["A1"]
        is_the_best_hypothesis := false
        is_valid := false
        why_not_valid := some "out of scope"
        solution := none }] : List CycleRecord).countP
        (·.is_the_best_hypothesis) ≤ 1
    ∧ ∀ r ∈ ([{ initial_query := "Design a URL shortener"
                current_question := "Design a URL shortener"
                hypothesis := "H1"
                verification_questions := ["Q1"]
                verification_answers := ["A1"]
                is_the_best_hypothesis := true
                is_valid := true
                why_not_valid := none
                solution := some "Use sharded counters." },
              { initial_query := "Design a URL shortener"
                current_question := "Design a URL shortener"
                hypothesis := "H2"
                verification_questions := ["Q1"]
                verification_answers := ["A1"]
                is_the_best_hypothesis := false
                is_valid := false
                why_not_valid := some "out of scope"
                solution := none }] : List CycleRecord),
        r.is_the_best_hypothesis = true →
          r.is_valid = true ∧ ∀ s, (some "Use sharded counters." : Option String)
            = some s → s ≠ "" → r.solution = some s :=
  summarize_best_unique "Design a URL shortener" ["H1", "H2"] ["Q1"] ["A1"]
    "H1" true "" none (some "Use sharded counters.")
    [{ hypothesis := "H1", is_valid := true, reason := none, is_best := true },
     { hypothesis := "H2", is_valid := false, reason := some "out of scope",
       is_best := false }]
    _ rfl (by decide) (by decide)

/-- The imperative line accumulation unfolds to one block of lines per
enumerated record, concatenated in order after the seed. -/
theorem foldl_append_recordLines (l : List (Nat × CycleRecord))
    (acc : List String) :
    l.foldl (fun a p => a ++ recordLines p.1 p.2) acc
      = acc ++ l.flatMap fun p => recordLines p.1 p.2 := by
  induction l generalizing acc with
  | nil => simp
  | cons p t ih => simp [ih, List.append_assoc]

/-- C8: `save_results` renders a missing (`None`) or empty history as the
header-only report without failing; on any history the report's lines are
the header followed by each record's section in order (one section per
record); the verification Q/A pairs of a record are the positional zip of
its questions and answers, truncated at the shorter list; and the solution
body section appears in a record's status lines exactly when the record is
valid, flagged best, and holds a non-empty solution. -/
theorem save_results_spec :
    save_results none = "# System Design Interview Report"
    ∧ save_results (some []) = "# System Design Interview Report"
    ∧ (∀ history, reportLines (some history)
        = "# System Design Interview Report"
          :: history.enum.flatMap fun p => recordLines p.1 p.2)
    ∧ (∀ r : CycleRecord,
        (r.verification_questions.zip r.verification_answers).length
        = min r.verification_questions.length r.verification_answers.length)
    ∧ (∀ r : CycleRecord, "\n#### Solution" ∈ statusLines r
        ↔ r.is_valid = true ∧ r.is_the_best_hypothesis = true
          ∧ ∃ s, r.solution = some s ∧ s ≠ "") := by
  refine ⟨rfl, rfl, ?_, ?_, ?_⟩
  · intro history
    rw [reportLines, Option.getD_some, foldl_append_recordLines]
    rfl
  · intro r
    simp [List.length_zip]
  · intro r
    constructor
    · intro hmem
      cases hval : r.is_valid with
      | false =>
        rw [statusLines, if_neg (by simp [hval])] at hmem
        rcases List.mem_cons.mp hmem with h1 | h2
        · exact absurd h1 (by decide)
        · have h3 := List.mem_singleton.mp h2
          have hlen := congrArg String.length h3
          rw [String.length_append] at hlen
          have e1 : ("\n#### Solution" : String).length = 14 := rfl
          have e2 : ("**Invalid Reason:** " : String).length = 20 := rfl
          rw [e1, e2] at hlen
          omega
      | true =>
        rw [statusLines, if_pos (by simp [hval])] at hmem
        cases hbest : r.is_the_best_hypothesis with
        | false =>
          rw [hbest] at hmem
          simp only [Bool.false_eq_true, if_false] at hmem
          exact absurd hmem (by decide)
        | true =>
          rw [hbest] at hmem
          simp only [if_true] at hmem
          cases hsol : r.solution with
          | none =>
            rw [hsol] at hmem
            exact absurd hmem (by decide)
          | some s =>
            rw [hsol] at hmem
            by_cases hs : s = ""
            · subst hs
              exact absurd hmem (by decide)
            · exact ⟨rfl, rfl, s, rfl, hs⟩
    · rintro ⟨hval, hbest, s, hsol, hs⟩
      simp [statusLines, hval, hbest, hsol, hs]

end SystemDesignBot
